import Mathlib

/-!
Verification model of the Confluence adapter (`app/confluence_client.py`):
the CQL search pagination accumulator (`ConfluenceClient.search`), the
parent-scope write guard (`_ensure_allowed`, `create_page`, `update_page`,
`delete_page`), and the Page-record constructors (`get_page_summary`,
`_get_children_recursive`, `list_pages`).

The upstream Confluence service is modelled as an oracle (a family of
functions answering the HTTP requests the adapter issues); the adapter's
logic itself is translated line by line from the Python source.  Machine
behaviour that a claim depends on (Python truthiness of optional strings,
`dict.get` defaults, list slicing) is modelled explicitly.
-/

/-- An upstream HTTP failure, as raised by `_make_request` /
`_make_direct_request`: `HTTPException(status_code=response.status_code,
detail=response.text)` — the upstream status code and body, verbatim. -/
structure HttpError where
  status : Nat
  detail : String
  deriving Repr, DecidableEq

/-- One upstream response to a search request: the `results` list (missing
key modelled as `[]`, matching `response.get("results", [])`) and the
optional continuation link (`response["_links"]["next"]`; `none` models a
response whose `_links` has no `next` key, matching the
`"_links" in response and "next" in response["_links"]` test). -/
structure SearchResponse (α : Type) where
  results : List α
  nextLink : Option String
  deriving Repr, DecidableEq

/-- The upstream service, from the point of view of one `search` call:
`first n` answers the initial `GET rest/api/search` whose `limit` query
parameter is `n` (the `cql`, `cursor`, `expand`, … parameters are fixed for
the call and absorbed into the oracle); `direct u` answers
`_make_direct_request(u)`, the follow-up `GET` of a resolved next link.
`Except.error e` models a non-2xx upstream response. -/
structure SearchUpstream (α : Type) where
  first : Nat → Except HttpError (SearchResponse α)
  direct : String → Except HttpError (SearchResponse α)

/-- Python `next_link.startswith("/")`. -/
def startsWithSlash (s : String) : Bool :=
  match s.data with
  | [] => false
  | c :: _ => c == '/'

/-- Python `self.url.rstrip("/")`: drop every trailing `/` character. -/
def rstripSlash (s : String) : String :=
  String.mk ((s.data.reverse.dropWhile (fun c => c == '/')).reverse)

/-- Next-link resolution (`confluence_client.py` lines 128-133): a link
starting with `/` is prefixed with the base URL stripped of trailing
slashes; any other link is used unchanged. -/
def resolveNextLink (baseUrl nextLink : String) : String :=
  if startsWithSlash nextLink then rstripSlash baseUrl ++ nextLink
  else nextLink

/-- The `while` condition of the accumulator (line 123-127):
continue (returning the next link) iff the current response carries a
`next` link and fewer than `limit` results have been accumulated. -/
def loopGuard {α : Type} (limit : Nat) (r : SearchResponse α) (acc : List α) :
    Option String :=
  match r.nextLink with
  | some l => if acc.length < limit then some l else none
  | none => none

/-- The accumulation loop of `search` (lines 123-137), with explicit fuel:
`none` models an execution that has not finished within `fuel` follow-up
fetches (the Python loop has no iteration cap).  On success it returns the
accumulated (untruncated) result list; on an upstream failure it returns
the upstream error unchanged and no results.  The second component is the
list of follow-up URLs fetched, in order. -/
def searchLoop {α : Type} (up : SearchUpstream α) (baseUrl : String) (limit : Nat) :
    Nat → SearchResponse α → List α →
    Option (Except HttpError (List α) × List String)
  | 0, r, acc =>
    match loopGuard limit r acc with
    | none => some (Except.ok acc, [])
    | some _ => none
  | f + 1, r, acc =>
    match loopGuard limit r acc with
    | none => some (Except.ok acc, [])
    | some l =>
      match up.direct (resolveNextLink baseUrl l) with
      | Except.error e => some (Except.error e, [resolveNextLink baseUrl l])
      | Except.ok r2 =>
        match searchLoop up baseUrl limit f r2 (acc ++ r2.results) with
        | none => none
        | some (res, urls) => some (res, resolveNextLink baseUrl l :: urls)

/-- The dictionary returned by `search` (lines 139-141): the accumulated
results truncated to `limit` (`all_results[:limit]`) and the `size` field
set to the length of that truncated list. -/
structure SearchOutcome (α : Type) where
  results : List α
  size : Nat
  deriving Repr, DecidableEq

/-- Observable request trace of one `search` call: the `limit` query
parameter sent with the initial request, and the follow-up URLs fetched. -/
structure SearchTrace where
  firstLimitParam : Nat
  followUps : List String
  deriving Repr, DecidableEq

/-- `ConfluenceClient.search` (lines 87-141): issue the initial request with
`limit = min(batch_size, limit)`, run the accumulation loop, then truncate
to `limit` and set `size`.  `none` models an execution that does not finish
within `fuel` follow-up fetches. -/
def search {α : Type} (up : SearchUpstream α) (baseUrl : String)
    (batch_size limit fuel : Nat) :
    Option (Except HttpError (SearchOutcome α) × SearchTrace) :=
  let firstLimit := min batch_size limit
  match up.first firstLimit with
  | Except.error e => some (Except.error e, ⟨firstLimit, []⟩)
  | Except.ok r0 =>
    match searchLoop up baseUrl limit fuel r0 r0.results with
    | none => none
    | some (Except.error e, urls) => some (Except.error e, ⟨firstLimit, urls⟩)
    | some (Except.ok allResults, urls) =>
      some (Except.ok ⟨allResults.take limit, (allResults.take limit).length⟩,
            ⟨firstLimit, urls⟩)

/-- The results lists the oracle serves at the given URLs (a failing URL
contributes `[]`; it is only used on success traces, where every fetched
URL succeeded). -/
def directPages {α : Type} (up : SearchUpstream α) (urls : List String) :
    List (List α) :=
  urls.map (fun u =>
    match up.direct u with
    | Except.ok r => r.results
    | Except.error _ => [])

/-- Termination of one `search` call: some amount of fuel suffices. -/
def searchTerminates {α : Type} (up : SearchUpstream α) (baseUrl : String)
    (batch_size limit : Nat) : Prop :=
  ∃ fuel, (search up baseUrl batch_size limit fuel).isSome = true

/-- Process-wide client configuration (`ConfluenceClient.__init__`):
`url` (guaranteed non-None at startup), the optional scope root
`CONFLUENCE_PARENT_PAGE` and the optional `CONFLUENCE_SPACE_KEY`.
`none` models an unset environment variable. -/
structure ClientEnv where
  url : String
  parentPage : Option String
  spaceKey : Option String

/-- Python truthiness of an optional string (`if not self.parent_page`,
`if not self.space_key`, `if parent_id`): `None` and `""` are falsy. -/
def optTruthy (o : Option String) : Bool :=
  match o with
  | none => false
  | some s => !s.isEmpty

/-- Python `x or default` on `Optional[str] x` and a string default:
the default is used when `x` is `None` or the empty string. -/
def pyOrStr (x : Option String) (default : String) : String :=
  match x with
  | none => default
  | some s => if s.isEmpty then default else s

/-- Python `x or y` on two `Optional[str]` values. -/
def pyOrOpt (x y : Option String) : Option String :=
  match x with
  | none => y
  | some s => if s.isEmpty then y else some s

/-- How Python renders an `Optional[str]` inside an f-string. -/
def pyStr (o : Option String) : String :=
  match o with
  | none => "None"
  | some s => s

/-- The CQL text of the scope existence query,
`f"id={page_id} and ancestor={self.parent_page}"`. -/
def scopeCql (pageId root : String) : String :=
  "id=" ++ pageId ++ " and ancestor=" ++ root

/-- The fixed authorization error `_ensure_allowed` raises. -/
def scopeError : HttpError :=
  ⟨403, "Operation not allowed on a page outside the configured parent scope"⟩

/-- The page data `update_page` reads from `get_page`'s response:
`page["title"]`, `page["body"]["storage"]["value"]`, and
`page.get("version", {}).get("number", 1)` (hence the optional version). -/
structure PageData where
  title : String
  bodyValue : String
  versionNumber : Option Nat
  deriving Repr, DecidableEq

/-- The JSON payload `update_page` submits with its `PUT` (lines 258-269);
`type: "page"` and `representation: "storage"` are constant. -/
structure UpdateBody where
  id : String
  title : String
  versionNumber : Nat
  bodyValue : String
  deriving Repr, DecidableEq

/-- The JSON payload `create_page` submits with its `POST` (lines 243-250);
`ancestors` is the single parent id, present iff `parent_id` is truthy. -/
structure CreatePayload where
  title : String
  spaceKey : String
  bodyValue : String
  ancestors : Option String
  deriving Repr, DecidableEq

/-- One upstream request issued by a write operation. -/
inductive Call where
  | searchScope (cql : String) (limitParam : Nat)
  | getContent (pageId : String)
  | putContent (pageId : String) (body : UpdateBody)
  | deleteContent (pageId : String)
  | postContent (payload : CreatePayload)
  deriving Repr, DecidableEq

/-- The upstream service from the point of view of the write operations.
`searchScope cql n` answers `self.search(cql, limit=n)` with the `size`
field of its result dictionary (the search accumulator itself is verified
separately above); the others answer the content `GET`/`PUT`/`DELETE`/`POST`
requests.  `Except.error` models a raised `HTTPException`. -/
structure WriteUpstream where
  searchScope : String → Nat → Except HttpError Nat
  getContent : String → Except HttpError PageData
  putContent : String → UpdateBody → Except HttpError Unit
  deleteContent : String → Except HttpError Unit
  postContent : CreatePayload → Except HttpError Unit

/-- `_ensure_allowed` (lines 55-65): no-op when the scope root is falsy;
otherwise run the scope existence query with `limit=1` and raise the fixed
403 error when its `size` is 0.  Returns the outcome together with the
upstream calls issued. -/
def ensureAllowed (env : ClientEnv) (up : WriteUpstream) (pageId : String) :
    Except HttpError Unit × List Call :=
  if optTruthy env.parentPage then
    let cql := scopeCql pageId (pyStr env.parentPage)
    match up.searchScope cql 1 with
    | Except.error e => (Except.error e, [Call.searchScope cql 1])
    | Except.ok size =>
      if size = 0 then (Except.error scopeError, [Call.searchScope cql 1])
      else (Except.ok (), [Call.searchScope cql 1])
  else (Except.ok (), [])

/-- The payload `update_page` builds (lines 258-269): `title or
page["title"]`, `version = current + 1` (current defaulting to 1 when the
fetched page has no version number), and `content or
page["body"]["storage"]["value"]`. -/
def updateBody (pageId : String) (page : PageData)
    (title content : Option String) : UpdateBody :=
  { id := pageId
    title := pyOrStr title page.title
    versionNumber := page.versionNumber.getD 1 + 1
    bodyValue := pyOrStr content page.bodyValue }

/-- `update_page` (lines 253-270): scope check, fetch the current page,
submit the `PUT` with the incremented version.  Returns the outcome and the
ordered list of upstream calls issued. -/
def update_page (env : ClientEnv) (up : WriteUpstream) (pageId : String)
    (title content : Option String) : Except HttpError Unit × List Call :=
  match ensureAllowed env up pageId with
  | (Except.error e, calls) => (Except.error e, calls)
  | (Except.ok _, calls) =>
    match up.getContent pageId with
    | Except.error e => (Except.error e, calls ++ [Call.getContent pageId])
    | Except.ok page =>
      let body := updateBody pageId page title content
      match up.putContent pageId body with
      | Except.error e =>
        (Except.error e, calls ++ [Call.getContent pageId, Call.putContent pageId body])
      | Except.ok _ =>
        (Except.ok (), calls ++ [Call.getContent pageId, Call.putContent pageId body])

/-- `delete_page` (lines 272-274): scope check, then the `DELETE`. -/
def delete_page (env : ClientEnv) (up : WriteUpstream) (pageId : String) :
    Except HttpError Unit × List Call :=
  match ensureAllowed env up pageId with
  | (Except.error e, calls) => (Except.error e, calls)
  | (Except.ok _, calls) =>
    match up.deleteContent pageId with
    | Except.error e => (Except.error e, calls ++ [Call.deleteContent pageId])
    | Except.ok _ => (Except.ok (), calls ++ [Call.deleteContent pageId])

/-- The payload `create_page` builds (lines 243-250). -/
def createPayload (env : ClientEnv) (title content : String)
    (parentId : Option String) : CreatePayload :=
  { title := title
    spaceKey := pyStr env.spaceKey
    bodyValue := content
    ancestors := if optTruthy parentId then some (pyStr parentId) else none }

/-- `create_page` (lines 223-251): fail 500 on a falsy space key; default an
absent (`None`) parent to the scope root; when a scope root is configured
and the (truthiness-defaulted) target differs from it, run the scope query
and reject with 403 on zero results; finally `POST` the payload. -/
def create_page (env : ClientEnv) (up : WriteUpstream)
    (title content : String) (parentId0 : Option String) :
    Except HttpError Unit × List Call :=
  if !optTruthy env.spaceKey then
    (Except.error ⟨500, "CONFLUENCE_SPACE_KEY not set"⟩, [])
  else
    let parentId := match parentId0 with
      | none => env.parentPage
      | some s => some s
    let post : List Call → Except HttpError Unit × List Call := fun calls =>
      let payload := createPayload env title content parentId
      match up.postContent payload with
      | Except.error e => (Except.error e, calls ++ [Call.postContent payload])
      | Except.ok _ => (Except.ok (), calls ++ [Call.postContent payload])
    if optTruthy env.parentPage then
      let target := pyOrOpt parentId env.parentPage
      if target ≠ env.parentPage then
        let cql := scopeCql (pyStr target) (pyStr env.parentPage)
        match up.searchScope cql 1 with
        | Except.error e => (Except.error e, [Call.searchScope cql 1])
        | Except.ok size =>
          if size = 0 then
            (Except.error ⟨403, "Parent page not within allowed scope"⟩,
             [Call.searchScope cql 1])
          else post [Call.searchScope cql 1]
      else post []
    else post []

/-- One entry of an upstream `ancestors` list: its `id` and `title`. -/
structure Ancestor where
  id : String
  title : String
  deriving Repr, DecidableEq

/-- The Page record shape shared by `_get_children_recursive` items and
`list_pages` items (and extended by `get_page_summary`):
`id`, `title`, Markdown `content`, `url`, `last_modified`,
`parent_page_id` / `parent_page_title` (both `None` for a root page). -/
structure Page where
  id : String
  title : String
  content : String
  url : String
  last_modified : Option String
  parent_page_id : Option String
  parent_page_title : Option String
  deriving Repr, DecidableEq

/-- The `get_page_summary` record additionally carries `modifier`. -/
structure SummaryPage extends Page where
  modifier : Option String
  deriving Repr, DecidableEq

/-- `ancestors[-1]["id"] if ancestors else None`. -/
def lastAncestorId (ancestors : List Ancestor) : Option String :=
  match ancestors.getLast? with
  | some a => some a.id
  | none => none

/-- `ancestors[-1]["title"] if ancestors else None`. -/
def lastAncestorTitle (ancestors : List Ancestor) : Option String :=
  match ancestors.getLast? with
  | some a => some a.title
  | none => none

/-- The fields `_get_children_recursive` reads from one entry of the
`child/page` listing (lines 154-164): `id`, `title`, the `export_view`
HTML body, the `webui` link, the version's `friendlyWhen` (optional), and
the `ancestors` list (missing key modelled as `[]`). -/
structure ChildData where
  id : String
  title : String
  exportViewHtml : String
  webui : String
  friendlyWhen : Option String
  ancestors : List Ancestor

/-- One `child/page` listing response: its `results` and the
`_links.base` string (missing key modelled as `""`). -/
structure ChildListing where
  results : List ChildData
  base : String

/-- The item dictionary `_get_children_recursive` builds for one child
(lines 156-164), before descendants are attached.  `htmlToMd` stands for
the external `html2text.html2text` conversion (`_html_to_markdown`). -/
def mkChildPage (htmlToMd : String → String) (base : String)
    (c : ChildData) : Page :=
  { id := c.id
    title := c.title
    content := htmlToMd c.exportViewHtml
    url := base ++ c.webui
    last_modified := c.friendlyWhen
    parent_page_id := lastAncestorId c.ancestors
    parent_page_title := lastAncestorTitle c.ancestors }

/-- A page together with its recursively fetched children; an empty child
list models an item without a `children` key. -/
inductive PageTree where
  | node (page : Page) (children : List PageTree)

/-- `_get_children_recursive` (lines 147-169), with explicit fuel bounding
the recursion depth (the Python recursion is unbounded; `childListing`
answers the `child/page` request for a page id, success path). -/
def getChildrenRecursive (htmlToMd : String → String)
    (childListing : String → ChildListing) :
    Nat → String → List PageTree
  | 0, _ => []
  | fuel + 1, pageId =>
    let data := childListing pageId
    data.results.map (fun child =>
      PageTree.node (mkChildPage htmlToMd data.base child)
        (getChildrenRecursive htmlToMd childListing fuel child.id))

/-- The fields `get_page_summary` reads from the content response
(lines 173-190). -/
structure SummaryData where
  id : String
  title : String
  exportViewHtml : String
  ancestors : List Ancestor
  base : String
  webui : String
  friendlyWhen : Option String
  modifierDisplayName : Option String

/-- The page dictionary `get_page_summary` builds (lines 176-190). -/
def mkSummaryPage (htmlToMd : String → String) (d : SummaryData) :
    SummaryPage :=
  { id := d.id
    title := d.title
    content := htmlToMd d.exportViewHtml
    url := d.base ++ d.webui
    last_modified := d.friendlyWhen
    parent_page_id := lastAncestorId d.ancestors
    parent_page_title := lastAncestorTitle d.ancestors
    modifier := d.modifierDisplayName }

/-- `get_page_summary` (lines 171-193): build the summary record and, when
requested, attach the recursively fetched children. -/
def get_page_summary (htmlToMd : String → String)
    (pageData : String → SummaryData) (childListing : String → ChildListing)
    (fuel : Nat) (pageId : String) (includeChildren : Bool) :
    SummaryPage × List PageTree :=
  (mkSummaryPage htmlToMd (pageData pageId),
   if includeChildren then getChildrenRecursive htmlToMd childListing fuel pageId
   else [])

/-- The fields `list_pages` reads from one search result entry that has
both a `title` and a `content` key (lines 206-219). -/
structure ListEntryData where
  contentId : String
  title : String
  exportViewHtml : String
  url : String
  friendlyLastModified : Option String
  ancestors : List Ancestor

/-- The page dictionary `list_pages` builds for one such entry. -/
def mkListPage (htmlToMd : String → String) (base : String)
    (e : ListEntryData) : Page :=
  { id := e.contentId
    title := e.title
    content := htmlToMd e.exportViewHtml
    url := base ++ e.url
    last_modified := e.friendlyLastModified
    parent_page_id := lastAncestorId e.ancestors
    parent_page_title := lastAncestorTitle e.ancestors }

/-- The filtering loop of `list_pages` (lines 204-221) over the results of
its search call: entries lacking a `title` or `content` key (modelled as
`none`) are skipped, the rest are mapped through `mkListPage` with the
response's `_links.base`. -/
def list_pages (htmlToMd : String → String) (base : String)
    (entries : List (Option ListEntryData)) : List Page :=
  entries.filterMap (fun e => e.map (mkListPage htmlToMd base))

/-- Any fuel: when the `while` condition fails the loop returns the
accumulator as is, with no follow-up fetch. -/
theorem searchLoop_guard_none {α : Type} {up : SearchUpstream α}
    {baseUrl : String} {limit : Nat} {r : SearchResponse α} {acc : List α}
    (fuel : Nat) (hg : loopGuard limit r acc = none) :
    searchLoop up baseUrl limit fuel r acc = some (Except.ok acc, []) := by
  cases fuel <;> · rw [searchLoop]; simp only [hg]

/-- Fuel 0 with the `while` condition holding: the run is unfinished. -/
theorem searchLoop_zero_some {α : Type} {up : SearchUpstream α}
    {baseUrl : String} {limit : Nat} {r : SearchResponse α} {acc : List α}
    {l : String} (hg : loopGuard limit r acc = some l) :
    searchLoop up baseUrl limit 0 r acc = none := by
  rw [searchLoop]
  simp only [hg]

/-- One iteration whose follow-up fetch fails: the loop surfaces the
upstream error unchanged, with the failing URL as the last fetch. -/
theorem searchLoop_succ_error {α : Type} {up : SearchUpstream α}
    {baseUrl : String} {limit : Nat} {r : SearchResponse α} {acc : List α}
    {l : String} {e : HttpError} (f : Nat)
    (hg : loopGuard limit r acc = some l)
    (hd : up.direct (resolveNextLink baseUrl l) = Except.error e) :
    searchLoop up baseUrl limit (f + 1) r acc =
      some (Except.error e, [resolveNextLink baseUrl l]) := by
  rw [searchLoop]
  simp only [hg, hd]

/-- One iteration whose follow-up fetch succeeds: the loop appends the
fetched results and continues with one unit of fuel less. -/
theorem searchLoop_succ_ok {α : Type} {up : SearchUpstream α}
    {baseUrl : String} {limit : Nat} {r : SearchResponse α} {acc : List α}
    {l : String} {r2 : SearchResponse α} (f : Nat)
    (hg : loopGuard limit r acc = some l)
    (hd : up.direct (resolveNextLink baseUrl l) = Except.ok r2) :
    searchLoop up baseUrl limit (f + 1) r acc =
      match searchLoop up baseUrl limit f r2 (acc ++ r2.results) with
      | none => none
      | some (res, urls) => some (res, resolveNextLink baseUrl l :: urls) := by
  rw [searchLoop]
  simp only [hg, hd]

/-- Loop invariant of the accumulator: a successful run starting from
accumulator `acc` returns `acc` extended, in order, with exactly the
result lists served at the follow-up URLs it fetched. -/
theorem searchLoop_ok_append {α : Type} (up : SearchUpstream α)
    (baseUrl : String) (limit : Nat) :
    ∀ (fuel : Nat) (r : SearchResponse α) (acc res : List α)
      (urls : List String),
      searchLoop up baseUrl limit fuel r acc = some (Except.ok res, urls) →
      res = acc ++ (directPages up urls).flatten := by
  intro fuel
  induction fuel with
  | zero =>
    intro r acc res urls h
    cases hg : loopGuard limit r acc with
    | none =>
      rw [searchLoop_guard_none 0 hg] at h
      simp only [Option.some.injEq, Prod.mk.injEq, Except.ok.injEq] at h
      obtain ⟨rfl, rfl⟩ := h
      simp [directPages]
    | some l =>
      rw [searchLoop_zero_some hg] at h
      simp at h
  | succ f ih =>
    intro r acc res urls h
    cases hg : loopGuard limit r acc with
    | none =>
      rw [searchLoop_guard_none (f + 1) hg] at h
      simp only [Option.some.injEq, Prod.mk.injEq, Except.ok.injEq] at h
      obtain ⟨rfl, rfl⟩ := h
      simp [directPages]
    | some l =>
      cases hd : up.direct (resolveNextLink baseUrl l) with
      | error e =>
        rw [searchLoop_succ_error f hg hd] at h
        simp at h
      | ok r2 =>
        rw [searchLoop_succ_ok f hg hd] at h
        cases hrec : searchLoop up baseUrl limit f r2 (acc ++ r2.results) with
        | none =>
          rw [hrec] at h
          simp at h
        | some p =>
          obtain ⟨res0, urls0⟩ := p
          rw [hrec] at h
          cases res0 with
          | error e => simp at h
          | ok res0 =>
            simp only [Option.some.injEq, Prod.mk.injEq, Except.ok.injEq] at h
            obtain ⟨rfl, rfl⟩ := h
            have hres0 := ih r2 (acc ++ r2.results) res0 urls0 hrec
            subst hres0
            have hcons : directPages up (resolveNextLink baseUrl l :: urls0)
                = r2.results :: directPages up urls0 := by
              simp only [directPages, List.map_cons, hd]
            rw [hcons, List.flatten_cons, List.append_assoc]

/-- Claim C2: for every query, batch size and limit, a successful search
result's `results` list has length at most the caller's `limit`, and its
`size` field equals the length of that trimmed list. -/
theorem claim_C2_size_invariant :
    ∀ (α : Type) (up : SearchUpstream α) (baseUrl : String)
      (batch_size limit fuel : Nat) (out : SearchOutcome α) (tr : SearchTrace),
      search up baseUrl batch_size limit fuel = some (Except.ok out, tr) →
      out.results.length ≤ limit ∧ out.size = out.results.length := by
  intro α up baseUrl B L fuel out tr h
  simp only [search] at h
  split at h
  · simp at h
  · split at h
    · simp at h
    · simp at h
    · rename_i allResults urls _
      simp only [Option.some.injEq, Prod.mk.injEq, Except.ok.injEq] at h
      obtain ⟨rfl, rfl⟩ := h
      refine ⟨?_, rfl⟩
      rw [List.length_take]
      exact Nat.min_le_left L allResults.length

/-- Concrete upstream for the claim C2 witness: three results, no link. -/
def threeResultUpstream : SearchUpstream Nat :=
  ⟨fun _ => Except.ok ⟨[1, 2, 3], none⟩, fun _ => Except.ok ⟨[], none⟩⟩

/-- Witness for claim C2 at a concrete input (limit 2, three available). -/
theorem claim_C2_witness :
    (⟨[1, 2], 2⟩ : SearchOutcome Nat).results.length ≤ 2 ∧
    (⟨[1, 2], 2⟩ : SearchOutcome Nat).size
      = (⟨[1, 2], 2⟩ : SearchOutcome Nat).results.length :=
  claim_C2_size_invariant Nat threeResultUpstream "https://w.example/" 25 2 5
    ⟨[1, 2], 2⟩ ⟨2, []⟩ rfl

/-- Concrete upstream for the claim C3 example: the first page returns 25
results together with a next link; any follow-up page would be empty. -/
def firstPage25Upstream : SearchUpstream Nat :=
  ⟨fun _ => Except.ok ⟨List.range 25, some "/rest/api/search?cursor=next"⟩,
   fun _ => Except.ok ⟨[], none⟩⟩

/-- Claim C3: the first batch is requested with `limit = min(batch_size,
limit)`; a successful accumulation equals the first page's results followed,
in fetch order, by the results of the followed pages, truncated to exactly
`limit`; and in the concrete example (`batch_size=25`, `limit=10`, first
page of 25 results with a next link) the accumulator returns the first 10
results and issues no follow-up fetch. -/
theorem claim_C3_accumulation :
    (∀ (α : Type) (up : SearchUpstream α) (baseUrl : String)
       (batch_size limit fuel : Nat)
       (res : Except HttpError (SearchOutcome α)) (tr : SearchTrace),
       search up baseUrl batch_size limit fuel = some (res, tr) →
       tr.firstLimitParam = min batch_size limit)
    ∧ (∀ (α : Type) (up : SearchUpstream α) (baseUrl : String)
        (batch_size limit fuel : Nat) (r0 : SearchResponse α)
        (out : SearchOutcome α) (tr : SearchTrace),
        up.first (min batch_size limit) = Except.ok r0 →
        search up baseUrl batch_size limit fuel = some (Except.ok out, tr) →
        out.results
          = (r0.results ++ (directPages up tr.followUps).flatten).take limit)
    ∧ search firstPage25Upstream "https://wiki.example/" 25 10 50
        = some (Except.ok ⟨(List.range 25).take 10, 10⟩, ⟨10, []⟩) := by
  refine ⟨?_, ?_, ?_⟩
  · intro α up baseUrl B L fuel res tr h
    simp only [search] at h
    split at h
    · simp only [Option.some.injEq, Prod.mk.injEq] at h
      obtain ⟨-, rfl⟩ := h
      rfl
    · split at h
      · simp at h
      · simp only [Option.some.injEq, Prod.mk.injEq] at h
        obtain ⟨-, rfl⟩ := h
        rfl
      · simp only [Option.some.injEq, Prod.mk.injEq] at h
        obtain ⟨-, rfl⟩ := h
        rfl
  · intro α up baseUrl B L fuel r0 out tr hf h
    simp only [search] at h
    split at h
    · rename_i e hfe
      rw [hf] at hfe
      simp at hfe
    · rename_i r0' hf'
      rw [hf] at hf'
      obtain rfl : r0' = r0 := by
        simpa using hf'.symm
      split at h
      · simp at h
      · simp at h
      · rename_i allResults urls hloop
        simp only [Option.some.injEq, Prod.mk.injEq, Except.ok.injEq] at h
        obtain ⟨rfl, rfl⟩ := h
        have hall := searchLoop_ok_append up baseUrl L fuel r0' r0'.results
          allResults urls hloop
        rw [hall]
  · rfl

/-- Witness for claim C3 at the example input. -/
theorem claim_C3_witness :
    (⟨10, []⟩ : SearchTrace).firstLimitParam = min 25 10 ∧
    (⟨(List.range 25).take 10, 10⟩ : SearchOutcome Nat).results
      = (List.range 25 ++ (directPages firstPage25Upstream []).flatten).take 10 :=
  ⟨claim_C3_accumulation.1 Nat firstPage25Upstream "https://wiki.example/"
      25 10 50 (Except.ok ⟨(List.range 25).take 10, 10⟩) ⟨10, []⟩ rfl,
   claim_C3_accumulation.2.1 Nat firstPage25Upstream "https://wiki.example/"
      25 10 50 ⟨List.range 25, some "/rest/api/search?cursor=next"⟩
      ⟨(List.range 25).take 10, 10⟩ ⟨10, []⟩ rfl rfl⟩

/-- An upstream that keeps answering with an empty results page carrying a
repeated identical next link — the degenerate upstream the specification
itself warns about. -/
def emptyLoopUpstream : SearchUpstream Nat :=
  ⟨fun _ => Except.ok ⟨[], some "/rest/api/search?cursor=same"⟩,
   fun _ => Except.ok ⟨[], some "/rest/api/search?cursor=same"⟩⟩

/-- Against `emptyLoopUpstream` the accumulation loop consumes any amount
of fuel without finishing. -/
theorem emptyLoop_searchLoop_none (baseUrl : String) :
    ∀ fuel : Nat,
      searchLoop emptyLoopUpstream baseUrl 10 fuel
        ⟨[], some "/rest/api/search?cursor=same"⟩ [] = none := by
  intro fuel
  induction fuel with
  | zero => rfl
  | succ f ih =>
    have hg : loopGuard 10 (⟨[], some "/rest/api/search?cursor=same"⟩ :
        SearchResponse Nat) [] = some "/rest/api/search?cursor=same" := rfl
    have hd : emptyLoopUpstream.direct
        (resolveNextLink baseUrl "/rest/api/search?cursor=same")
        = Except.ok ⟨[], some "/rest/api/search?cursor=same"⟩ := rfl
    rw [searchLoop_succ_ok f hg hd]
    simp only [List.nil_append, ih]

/-- Counterexample to claim C4 as stated: an execution in which the first,
under-limit response carries a next link and every followed page
contributes no further results, yet the accumulator never terminates —
each empty page repeats the identical next link, so the `while` condition
never becomes false. -/
theorem claim_C4_counterexample :
    ¬ searchTerminates emptyLoopUpstream "https://wiki.example/" 25 10 := by
  intro hterm
  obtain ⟨fuel, hfuel⟩ := hterm
  have hnone : search emptyLoopUpstream "https://wiki.example/" 25 10 fuel
      = none := by
    have hfirst : emptyLoopUpstream.first (min 25 10)
        = Except.ok ⟨[], some "/rest/api/search?cursor=same"⟩ := rfl
    simp only [search, hfirst,
      emptyLoop_searchLoop_none "https://wiki.example/" fuel]
  rw [hnone] at hfuel
  simp at hfuel

/-- Claim C4 amended: the accumulator terminates when the page that the
next link leads to carries no next link of its own (in particular the
final empty page of a result set), regardless of how many results it
contributes; an empty page repeating a next link makes it loop instead. -/
theorem claim_C4_amended_termination :
    ∀ (α : Type) (up : SearchUpstream α) (baseUrl : String)
      (batch_size limit : Nat) (r0 r2 : SearchResponse α) (l : String),
      up.first (min batch_size limit) = Except.ok r0 →
      r0.nextLink = some l →
      up.direct (resolveNextLink baseUrl l) = Except.ok r2 →
      r2.nextLink = none →
      searchTerminates up baseUrl batch_size limit := by
  intro α up baseUrl B L r0 r2 l hf hnext hd hnone
  refine ⟨1, ?_⟩
  simp only [search, hf]
  by_cases hlen : r0.results.length < L
  · have hg : loopGuard L r0 r0.results = some l := by
      simp [loopGuard, hnext, hlen]
    rw [searchLoop_succ_ok 0 hg hd]
    have hg2 : loopGuard L r2 (r0.results ++ r2.results) = none := by
      simp [loopGuard, hnone]
    rw [searchLoop_guard_none 0 hg2]
    rfl
  · have hg : loopGuard L r0 r0.results = none := by
      cases hr : r0.nextLink with
      | none => simp [loopGuard, hr]
      | some l2 => simp [loopGuard, hr, hlen]
    rw [searchLoop_guard_none 1 hg]
    rfl

/-- Concrete upstream for the claim C4 witness: one result, a next link,
and a final empty page without a link. -/
def finalEmptyPageUpstream : SearchUpstream Nat :=
  ⟨fun _ => Except.ok ⟨[7], some "/rest/api/search?cursor=end"⟩,
   fun _ => Except.ok ⟨[], none⟩⟩

/-- Witness for the amended claim C4 at a concrete input. -/
theorem claim_C4_amended_witness :
    searchTerminates finalEmptyPageUpstream "https://wiki.example/" 25 10 :=
  claim_C4_amended_termination Nat finalEmptyPageUpstream
    "https://wiki.example/" 25 10
    ⟨[7], some "/rest/api/search?cursor=end"⟩ ⟨[], none⟩
    "/rest/api/search?cursor=end" rfl rfl rfl rfl

/-- Claim C7: a next link starting with `/` is resolved against the
configured base URL (stripped of trailing slashes); any other link — in
particular an absolute `https://…` link — is used unchanged; and the URL
the loop actually fetches next is exactly the resolved link. -/
theorem claim_C7_next_link_resolution :
    (∀ (baseUrl l : String), startsWithSlash l = true →
       resolveNextLink baseUrl l = rstripSlash baseUrl ++ l)
    ∧ (∀ (baseUrl l : String), startsWithSlash l = false →
        resolveNextLink baseUrl l = l)
    ∧ (∀ baseUrl : String,
        resolveNextLink baseUrl "https://other.example/rest/api/search?cursor=abs"
          = "https://other.example/rest/api/search?cursor=abs")
    ∧ (∀ (α : Type) (up : SearchUpstream α) (baseUrl : String)
        (limit f : Nat) (r : SearchResponse α) (acc : List α) (l : String)
        (out : Except HttpError (List α)) (urls : List String),
        loopGuard limit r acc = some l →
        searchLoop up baseUrl limit (f + 1) r acc = some (out, urls) →
        urls.head? = some (resolveNextLink baseUrl l)) := by
  refine ⟨?_, ?_, ?_, ?_⟩
  · intro baseUrl l h
    simp [resolveNextLink, h]
  · intro baseUrl l h
    simp [resolveNextLink, h]
  · intro baseUrl
    rfl
  · intro α up baseUrl limit f r acc l out urls hg h
    cases hd : up.direct (resolveNextLink baseUrl l) with
    | error e =>
      rw [searchLoop_succ_error f hg hd] at h
      simp only [Option.some.injEq, Prod.mk.injEq] at h
      obtain ⟨-, rfl⟩ := h
      rfl
    | ok r2 =>
      rw [searchLoop_succ_ok f hg hd] at h
      cases hrec : searchLoop up baseUrl limit f r2 (acc ++ r2.results) with
      | none =>
        rw [hrec] at h
        simp at h
      | some p =>
        obtain ⟨res0, urls0⟩ := p
        rw [hrec] at h
        simp only [Option.some.injEq, Prod.mk.injEq] at h
        obtain ⟨-, rfl⟩ := h
        rfl

/-- Witness for claim C7 at concrete inputs: a server-relative link, an
absolute link, and one loop step against a concrete upstream. -/
theorem claim_C7_witness :
    resolveNextLink "https://w.example/" "/next"
      = rstripSlash "https://w.example/" ++ "/next" ∧
    resolveNextLink "https://w.example/" "https://abs.example/x"
      = "https://abs.example/x" ∧
    (["https://w.example/n"] : List String).head?
      = some (resolveNextLink "https://w.example/" "/n") :=
  ⟨claim_C7_next_link_resolution.1 "https://w.example/" "/next" rfl,
   claim_C7_next_link_resolution.2.1 "https://w.example/"
     "https://abs.example/x" rfl,
   claim_C7_next_link_resolution.2.2.2 Nat finalEmptyPageUpstream
     "https://w.example/" 10 0 ⟨[], some "/n"⟩ [] "/n" (Except.ok [])
     ["https://w.example/n"] rfl rfl⟩

/-- Shape of a failed accumulation: the trace is a non-empty list of
follow-up URLs whose last fetch failed with exactly the surfaced error and
whose earlier fetches all succeeded — the error of the first failing batch
aborts the run, and no result list is produced alongside it. -/
theorem searchLoop_error_shape {α : Type} (up : SearchUpstream α)
    (baseUrl : String) (limit : Nat) :
    ∀ (fuel : Nat) (r : SearchResponse α) (acc : List α) (e : HttpError)
      (urls : List String),
      searchLoop up baseUrl limit fuel r acc = some (Except.error e, urls) →
      ∃ pre u, urls = pre ++ [u] ∧ up.direct u = Except.error e ∧
        ∀ v ∈ pre, ∃ r2, up.direct v = Except.ok r2 := by
  intro fuel
  induction fuel with
  | zero =>
    intro r acc e urls h
    cases hg : loopGuard limit r acc with
    | none =>
      rw [searchLoop_guard_none 0 hg] at h
      simp at h
    | some l =>
      rw [searchLoop_zero_some hg] at h
      simp at h
  | succ f ih =>
    intro r acc e urls h
    cases hg : loopGuard limit r acc with
    | none =>
      rw [searchLoop_guard_none (f + 1) hg] at h
      simp at h
    | some l =>
      cases hd : up.direct (resolveNextLink baseUrl l) with
      | error e0 =>
        rw [searchLoop_succ_error f hg hd] at h
        simp only [Option.some.injEq, Prod.mk.injEq, Except.error.injEq] at h
        obtain ⟨rfl, rfl⟩ := h
        exact ⟨[], resolveNextLink baseUrl l, rfl, hd, by simp⟩
      | ok r2 =>
        rw [searchLoop_succ_ok f hg hd] at h
        cases hrec : searchLoop up baseUrl limit f r2 (acc ++ r2.results) with
        | none =>
          rw [hrec] at h
          simp at h
        | some p =>
          obtain ⟨res0, urls0⟩ := p
          rw [hrec] at h
          cases res0 with
          | ok res0 => simp at h
          | error e0 =>
            simp only [Option.some.injEq, Prod.mk.injEq,
              Except.error.injEq] at h
            obtain ⟨rfl, rfl⟩ := h
            obtain ⟨pre, u, hurls, hu, hpre⟩ :=
              ih r2 (acc ++ r2.results) e0 urls0 hrec
            refine ⟨resolveNextLink baseUrl l :: pre, u, ?_, hu, ?_⟩
            · rw [hurls, List.cons_append]
            · intro v hv
              rcases List.mem_cons.mp hv with rfl | hv
              · exact ⟨r2, hd⟩
              · exact hpre v hv

/-- Claim C8: a non-success upstream response aborts the operation at once,
surfacing the upstream status and body verbatim, with no retry.  For the
accumulator: a failing initial request yields exactly that error with no
follow-up fetch; a failing run in general carries the error of its one
failing batch — all earlier fetches succeeded, the failing URL is fetched
once as the last request, and no partial result list is returned.  For a
write: a failing content fetch aborts `update_page` with that error before
any `PUT`. -/
theorem claim_C8_abort_on_error :
    (∀ (α : Type) (up : SearchUpstream α) (baseUrl : String)
       (batch_size limit fuel : Nat) (e : HttpError),
       up.first (min batch_size limit) = Except.error e →
       search up baseUrl batch_size limit fuel
         = some (Except.error e, ⟨min batch_size limit, []⟩))
    ∧ (∀ (α : Type) (up : SearchUpstream α) (baseUrl : String)
        (batch_size limit fuel : Nat) (e : HttpError) (tr : SearchTrace),
        search up baseUrl batch_size limit fuel = some (Except.error e, tr) →
        (tr.followUps = [] ∧ up.first (min batch_size limit) = Except.error e)
        ∨ ∃ pre u, tr.followUps = pre ++ [u] ∧ up.direct u = Except.error e ∧
            ∀ v ∈ pre, ∃ r2, up.direct v = Except.ok r2)
    ∧ (∀ (env : ClientEnv) (up : WriteUpstream) (pageId : String)
        (title content : Option String) (e : HttpError),
        optTruthy env.parentPage = false →
        up.getContent pageId = Except.error e →
        update_page env up pageId title content
          = (Except.error e, [Call.getContent pageId])) := by
  refine ⟨?_, ?_, ?_⟩
  · intro α up baseUrl B L fuel e h
    simp only [search, h]
  · intro α up baseUrl B L fuel e tr h
    simp only [search] at h
    split at h
    · rename_i e0 hf
      simp only [Option.some.injEq, Prod.mk.injEq, Except.error.injEq] at h
      obtain ⟨rfl, rfl⟩ := h
      exact Or.inl ⟨rfl, hf⟩
    · rename_i r0 hf
      split at h
      · simp at h
      · rename_i e0 urls hloop
        simp only [Option.some.injEq, Prod.mk.injEq, Except.error.injEq] at h
        obtain ⟨rfl, rfl⟩ := h
        exact Or.inr
          (searchLoop_error_shape up baseUrl L fuel r0 r0.results e0 urls hloop)
      · simp at h
  · intro env up pageId title content e hpar hget
    have hens : ensureAllowed env up pageId = (Except.ok (), []) := by
      simp [ensureAllowed, hpar]
    simp [update_page, hens, hget]

/-- Concrete search upstream whose initial request fails. -/
def failFirstUpstream : SearchUpstream Nat :=
  ⟨fun _ => Except.error ⟨503, "service unavailable"⟩,
   fun _ => Except.ok ⟨[], none⟩⟩

/-- Concrete write upstream whose content fetch fails. -/
def failGetUpstream : WriteUpstream :=
  { searchScope := fun _ _ => Except.ok 1
    getContent := fun _ => Except.error ⟨404, "no content"⟩
    putContent := fun _ _ => Except.ok ()
    deleteContent := fun _ => Except.ok ()
    postContent := fun _ => Except.ok () }

/-- Witness for claim C8 at concrete inputs. -/
theorem claim_C8_witness :
    search failFirstUpstream "https://w.example/" 25 10 5
      = some (Except.error ⟨503, "service unavailable"⟩, ⟨min 25 10, []⟩) ∧
    (((⟨10, []⟩ : SearchTrace).followUps = [] ∧
      failFirstUpstream.first (min 25 10)
        = Except.error ⟨503, "service unavailable"⟩)
     ∨ ∃ pre u, (⟨10, []⟩ : SearchTrace).followUps = pre ++ [u] ∧
         failFirstUpstream.direct u = Except.error ⟨503, "service unavailable"⟩ ∧
         ∀ v ∈ pre, ∃ r2, failFirstUpstream.direct v = Except.ok r2) ∧
    update_page ⟨"https://w.example/", none, some "DOC"⟩ failGetUpstream
        "200" (some "t") none
      = (Except.error ⟨404, "no content"⟩, [Call.getContent "200"]) :=
  ⟨claim_C8_abort_on_error.1 Nat failFirstUpstream "https://w.example/"
      25 10 5 ⟨503, "service unavailable"⟩ rfl,
   claim_C8_abort_on_error.2.1 Nat failFirstUpstream "https://w.example/"
      25 10 5 ⟨503, "service unavailable"⟩ ⟨10, []⟩ rfl,
   claim_C8_abort_on_error.2.2 ⟨"https://w.example/", none, some "DOC"⟩
      failGetUpstream "200" (some "t") none ⟨404, "no content"⟩ rfl rfl⟩

/-- Call trace of a successful-guard `update_page` up to the `PUT`: the
guard's calls, then the content fetch, then the `PUT` of the built
payload (issued whether or not it succeeds). -/
theorem update_page_trace (env : ClientEnv) (up : WriteUpstream)
    (pageId : String) (title content : Option String) (page : PageData)
    (hget : up.getContent pageId = Except.ok page) :
    ∀ calls, ensureAllowed env up pageId = (Except.ok (), calls) →
      (update_page env up pageId title content).2
        = calls ++ [Call.getContent pageId,
            Call.putContent pageId (updateBody pageId page title content)] := by
  intro calls hE
  simp only [update_page, hE, hget]
  cases hput : up.putContent pageId (updateBody pageId page title content) <;>
    simp [hput]

/-- The guard's outcome when a scope root is configured: exactly one scoped
existence query with limit 1; reject with the fixed 403 iff its size is 0. -/
theorem ensureAllowed_configured (env : ClientEnv) (up : WriteUpstream)
    (root pageId : String) (henv : env.parentPage = some root)
    (hroot : root.isEmpty = false) :
    ∀ n, up.searchScope (scopeCql pageId root) 1 = Except.ok n →
      ensureAllowed env up pageId
        = (if n = 0 then
             (Except.error scopeError, [Call.searchScope (scopeCql pageId root) 1])
           else (Except.ok (), [Call.searchScope (scopeCql pageId root) 1])) := by
  intro n hq
  have htr : optTruthy env.parentPage = true := by
    rw [henv]
    simp [optTruthy, hroot]
  have hps : pyStr env.parentPage = root := by
    rw [henv]
    rfl
  simp only [ensureAllowed, htr, if_true, hps, hq]

/-- Claim C1: for update and delete, with no scope root configured the
write proceeds with no scope-check query at all; with a scope root
configured the guard issues the scoped existence query with limit 1 and
the mutating upstream call is issued iff the query returns at least one
result — on zero results both operations return the fixed 403
authorization error with its fixed message and issue no mutating call. -/
theorem claim_C1_scope_guard :
    (∀ (env : ClientEnv) (up : WriteUpstream) (pageId : String),
       optTruthy env.parentPage = false →
       ensureAllowed env up pageId = (Except.ok (), []) ∧
       (delete_page env up pageId).2 = [Call.deleteContent pageId])
    ∧ (∀ (env : ClientEnv) (up : WriteUpstream) (pageId : String)
        (title content : Option String),
        optTruthy env.parentPage = false →
        ∀ cql n, Call.searchScope cql n ∉ (update_page env up pageId title content).2)
    ∧ (∀ (env : ClientEnv) (up : WriteUpstream) (root pageId : String)
        (title content : Option String),
        env.parentPage = some root → root.isEmpty = false →
        up.searchScope (scopeCql pageId root) 1 = Except.ok 0 →
        delete_page env up pageId
          = (Except.error scopeError, [Call.searchScope (scopeCql pageId root) 1]) ∧
        update_page env up pageId title content
          = (Except.error scopeError, [Call.searchScope (scopeCql pageId root) 1]))
    ∧ (∀ (env : ClientEnv) (up : WriteUpstream) (root pageId : String) (n : Nat),
        env.parentPage = some root → root.isEmpty = false →
        up.searchScope (scopeCql pageId root) 1 = Except.ok (n + 1) →
        (delete_page env up pageId).2
          = [Call.searchScope (scopeCql pageId root) 1, Call.deleteContent pageId])
    ∧ (∀ (env : ClientEnv) (up : WriteUpstream) (root pageId : String)
        (title content : Option String) (page : PageData) (n : Nat),
        env.parentPage = some root → root.isEmpty = false →
        up.searchScope (scopeCql pageId root) 1 = Except.ok (n + 1) →
        up.getContent pageId = Except.ok page →
        (update_page env up pageId title content).2
          = [Call.searchScope (scopeCql pageId root) 1, Call.getContent pageId,
             Call.putContent pageId (updateBody pageId page title content)]) := by
  refine ⟨?_, ?_, ?_, ?_, ?_⟩
  · intro env up pageId hpar
    have hens : ensureAllowed env up pageId = (Except.ok (), []) := by
      simp [ensureAllowed, hpar]
    refine ⟨hens, ?_⟩
    simp only [delete_page, hens]
    cases hdel : up.deleteContent pageId <;> simp [hdel]
  · intro env up pageId title content hpar cql n
    have hens : ensureAllowed env up pageId = (Except.ok (), []) := by
      simp [ensureAllowed, hpar]
    simp only [update_page, hens]
    cases hget : up.getContent pageId with
    | error e => simp
    | ok page =>
      cases hput : up.putContent pageId (updateBody pageId page title content) <;>
        simp [hput]
  · intro env up root pageId title content henv hroot hq
    have hens := ensureAllowed_configured env up root pageId henv hroot 0 hq
    rw [if_pos rfl] at hens
    constructor
    · simp [delete_page, hens]
    · simp [update_page, hens]
  · intro env up root pageId n henv hroot hq
    have hens := ensureAllowed_configured env up root pageId henv hroot (n + 1) hq
    rw [if_neg (Nat.succ_ne_zero n)] at hens
    simp only [delete_page, hens]
    cases hdel : up.deleteContent pageId <;> simp [hdel]
  · intro env up root pageId title content page n henv hroot hq hget
    have hens := ensureAllowed_configured env up root pageId henv hroot (n + 1) hq
    rw [if_neg (Nat.succ_ne_zero n)] at hens
    have := update_page_trace env up pageId title content page hget
      [Call.searchScope (scopeCql pageId root) 1] hens
    simpa using this

/-- Configuration without a scope root. -/
def envNoScope : ClientEnv := ⟨"https://w.example/", none, some "DOC"⟩

/-- Configuration with scope root page `100`. -/
def envScope : ClientEnv := ⟨"https://w.example/", some "100", some "DOC"⟩

/-- A write upstream whose scope queries find one result. -/
def allowScopeUpstream : WriteUpstream :=
  { searchScope := fun _ _ => Except.ok 1
    getContent := fun _ => Except.ok ⟨"Title", "<p>b</p>", some 3⟩
    putContent := fun _ _ => Except.ok ()
    deleteContent := fun _ => Except.ok ()
    postContent := fun _ => Except.ok () }

/-- A write upstream whose scope queries find nothing. -/
def denyScopeUpstream : WriteUpstream :=
  { searchScope := fun _ _ => Except.ok 0
    getContent := fun _ => Except.ok ⟨"Title", "<p>b</p>", some 3⟩
    putContent := fun _ _ => Except.ok ()
    deleteContent := fun _ => Except.ok ()
    postContent := fun _ => Except.ok () }

/-- Witness for claim C1 at concrete inputs, covering the unscoped, the
rejected and the permitted cases for both delete and update. -/
theorem claim_C1_witness :
    (ensureAllowed envNoScope allowScopeUpstream "7" = (Except.ok (), []) ∧
     (delete_page envNoScope allowScopeUpstream "7").2
       = [Call.deleteContent "7"]) ∧
    Call.searchScope "q" 1
      ∉ (update_page envNoScope allowScopeUpstream "7" none none).2 ∧
    (delete_page envScope denyScopeUpstream "7"
       = (Except.error scopeError, [Call.searchScope (scopeCql "7" "100") 1]) ∧
     update_page envScope denyScopeUpstream "7" none none
       = (Except.error scopeError, [Call.searchScope (scopeCql "7" "100") 1])) ∧
    (delete_page envScope allowScopeUpstream "7").2
      = [Call.searchScope (scopeCql "7" "100") 1, Call.deleteContent "7"] ∧
    (update_page envScope allowScopeUpstream "7" none none).2
      = [Call.searchScope (scopeCql "7" "100") 1, Call.getContent "7",
         Call.putContent "7"
           (updateBody "7" ⟨"Title", "<p>b</p>", some 3⟩ none none)] :=
  ⟨claim_C1_scope_guard.1 envNoScope allowScopeUpstream "7" rfl,
   claim_C1_scope_guard.2.1 envNoScope allowScopeUpstream "7" none none rfl "q" 1,
   claim_C1_scope_guard.2.2.1 envScope denyScopeUpstream "100" "7" none none
     rfl rfl rfl,
   claim_C1_scope_guard.2.2.2.1 envScope allowScopeUpstream "100" "7" 0
     rfl rfl rfl,
   claim_C1_scope_guard.2.2.2.2 envScope allowScopeUpstream "100" "7" none none
     ⟨"Title", "<p>b</p>", some 3⟩ 0 rfl rfl rfl rfl⟩

/-- A write upstream modelling a two-page tree — page `101` is a child of
page `100` — answering the scoped existence queries with Confluence CQL
semantics, in which `ancestor=R` matches strict descendants of `R` only:
`id=101 and ancestor=100` has one result, `id=100 and ancestor=100` (the
root itself) has none. -/
def treeScopedUpstream : WriteUpstream :=
  { searchScope := fun cql _ =>
      Except.ok (if cql = scopeCql "101" "100" then 1 else 0)
    getContent := fun _ => Except.ok ⟨"Root", "<p>r</p>", some 3⟩
    putContent := fun _ _ => Except.ok ()
    deleteContent := fun _ => Except.ok ()
    postContent := fun _ => Except.ok () }

/-- Counterexample to claim C5 as stated: with scope root `100` configured
and an upstream answering the scope query with strict-descendant CQL
semantics, an update and a delete whose target is the root page `100`
itself are rejected with the fixed 403 scope error — no mutating call is
issued — because `_ensure_allowed` queries `id=100 and ancestor=100`
without special-casing the root, unlike `create_page`. -/
theorem claim_C5_counterexample :
    delete_page envScope treeScopedUpstream "100"
      = (Except.error scopeError, [Call.searchScope (scopeCql "100" "100") 1]) ∧
    update_page envScope treeScopedUpstream "100" (some "T") none
      = (Except.error scopeError, [Call.searchScope (scopeCql "100" "100") 1]) := by
  constructor <;> rfl

/-- Claim C5 amended: with a scope root configured, `create_page` with the
root itself as explicit parent proceeds to the `POST` with no scope query
(the `target_id != self.parent_page` test skips it); update and delete on
the root run the scope query `id=R and ancestor=R` and are permitted iff
it returns at least one result — with strict-descendant query semantics it
returns none, so they are rejected with the fixed 403 scope error. -/
theorem claim_C5_amended :
    (∀ (env : ClientEnv) (up : WriteUpstream) (root title content : String),
       env.parentPage = some root → root.isEmpty = false →
       optTruthy env.spaceKey = true →
       (create_page env up title content (some root)).2
         = [Call.postContent (createPayload env title content (some root))])
    ∧ (∀ (env : ClientEnv) (up : WriteUpstream) (root : String) (n : Nat),
        env.parentPage = some root → root.isEmpty = false →
        up.searchScope (scopeCql root root) 1 = Except.ok (n + 1) →
        (ensureAllowed env up root).1 = Except.ok ())
    ∧ (∀ (env : ClientEnv) (up : WriteUpstream) (root : String),
        env.parentPage = some root → root.isEmpty = false →
        up.searchScope (scopeCql root root) 1 = Except.ok 0 →
        delete_page env up root
          = (Except.error scopeError,
             [Call.searchScope (scopeCql root root) 1])) := by
  refine ⟨?_, ?_, ?_⟩
  · intro env up root title content henv hroot hsk
    have htr : optTruthy env.parentPage = true := by
      rw [henv]
      simp [optTruthy, hroot]
    have htarget : pyOrOpt (some root) env.parentPage = env.parentPage := by
      rw [henv]
      simp [pyOrOpt, hroot]
    simp only [create_page, hsk, Bool.not_true, Bool.false_eq_true, if_false,
      htr, if_true, htarget, ne_eq, not_true_eq_false]
    cases hpost : up.postContent (createPayload env title content (some root)) <;>
      simp [hpost]
  · intro env up root n henv hroot hq
    have hens := ensureAllowed_configured env up root root henv hroot (n + 1) hq
    rw [if_neg (Nat.succ_ne_zero n)] at hens
    rw [hens]
  · intro env up root henv hroot hq
    have hens := ensureAllowed_configured env up root root henv hroot 0 hq
    rw [if_pos rfl] at hens
    simp [delete_page, hens]

/-- Witness for the amended claim C5 at concrete inputs: create with
explicit parent `100` (the root) proceeds straight to the `POST`; the
guard permits page `100` when the query finds a result and delete on `100`
is rejected when it does not. -/
theorem claim_C5_amended_witness :
    (create_page envScope treeScopedUpstream "T" "B" (some "100")).2
      = [Call.postContent (createPayload envScope "T" "B" (some "100"))] ∧
    (ensureAllowed envScope allowScopeUpstream "100").1 = Except.ok () ∧
    delete_page envScope treeScopedUpstream "100"
      = (Except.error scopeError, [Call.searchScope (scopeCql "100" "100") 1]) :=
  ⟨claim_C5_amended.1 envScope treeScopedUpstream "100" "T" "B" rfl rfl rfl,
   claim_C5_amended.2.1 envScope allowScopeUpstream "100" 0 rfl rfl rfl,
   claim_C5_amended.2.2 envScope treeScopedUpstream "100" rfl rfl rfl⟩

/-- Claim C6: an update first fetches the target page and, when the fetched
page carries version number `v`, submits its `PUT` with version exactly
`v + 1` — the `PUT` payload follows the `GET` in the call trace. -/
theorem claim_C6_version_increment :
    ∀ (env : ClientEnv) (up : WriteUpstream) (pageId : String)
      (title content : Option String) (page : PageData) (v : Nat)
      (calls : List Call),
      ensureAllowed env up pageId = (Except.ok (), calls) →
      up.getContent pageId = Except.ok page →
      page.versionNumber = some v →
      (updateBody pageId page title content).versionNumber = v + 1 ∧
      (update_page env up pageId title content).2
        = calls ++ [Call.getContent pageId,
            Call.putContent pageId (updateBody pageId page title content)] := by
  intro env up pageId title content page v calls hE hget hv
  refine ⟨?_, update_page_trace env up pageId title content page hget calls hE⟩
  simp [updateBody, hv]

/-- Witness for claim C6: the fetched page has version 3 and the submitted
payload carries version 4, after the fetch in the trace. -/
theorem claim_C6_witness :
    (updateBody "7" ⟨"Title", "<p>b</p>", some 3⟩ (some "New") none).versionNumber
      = 3 + 1 ∧
    (update_page envNoScope allowScopeUpstream "7" (some "New") none).2
      = [] ++ [Call.getContent "7",
          Call.putContent "7"
            (updateBody "7" ⟨"Title", "<p>b</p>", some 3⟩ (some "New") none)] :=
  claim_C6_version_increment envNoScope allowScopeUpstream "7" (some "New") none
    ⟨"Title", "<p>b</p>", some 3⟩ 3 [] rfl rfl rfl

/-- Claim C10: an update whose new title (resp. content) is absent or the
empty string submits the page's existing title (resp. body) instead, so
the submitted field is empty only when the existing field already was; the
payload so built is exactly what the `PUT` carries. -/
theorem claim_C10_empty_falls_back :
    (∀ (pageId : String) (page : PageData) (title content : Option String),
       title = none ∨ title = some "" →
       (updateBody pageId page title content).title = page.title)
    ∧ (∀ (pageId : String) (page : PageData) (title content : Option String),
        content = none ∨ content = some "" →
        (updateBody pageId page title content).bodyValue = page.bodyValue)
    ∧ (∀ (pageId : String) (page : PageData) (title content : Option String),
        (updateBody pageId page title content).title = "" → page.title = "")
    ∧ (∀ (pageId : String) (page : PageData) (title content : Option String),
        (updateBody pageId page title content).bodyValue = ""
          → page.bodyValue = "")
    ∧ (∀ (env : ClientEnv) (up : WriteUpstream) (pageId : String)
        (title content : Option String) (page : PageData) (calls : List Call),
        ensureAllowed env up pageId = (Except.ok (), calls) →
        up.getContent pageId = Except.ok page →
        Call.putContent pageId (updateBody pageId page title content)
          ∈ (update_page env up pageId title content).2) := by
  have hempty : "".isEmpty = true := rfl
  refine ⟨?_, ?_, ?_, ?_, ?_⟩
  · intro pageId page title content h
    rcases h with rfl | rfl <;> simp [updateBody, pyOrStr, hempty]
  · intro pageId page title content h
    rcases h with rfl | rfl <;> simp [updateBody, pyOrStr, hempty]
  · intro pageId page title content h
    cases title with
    | none => simpa [updateBody, pyOrStr] using h
    | some s =>
      by_cases hs : s.isEmpty = true
      · simpa [updateBody, pyOrStr, hs] using h
      · simp only [updateBody, pyOrStr, hs, if_false, Bool.false_eq_true] at h
        exact absurd (h ▸ rfl : s.isEmpty = true) hs
  · intro pageId page title content h
    cases content with
    | none => simpa [updateBody, pyOrStr] using h
    | some s =>
      by_cases hs : s.isEmpty = true
      · simpa [updateBody, pyOrStr, hs] using h
      · simp only [updateBody, pyOrStr, hs, if_false, Bool.false_eq_true] at h
        exact absurd (h ▸ rfl : s.isEmpty = true) hs
  · intro env up pageId title content page calls hE hget
    rw [update_page_trace env up pageId title content page hget calls hE]
    simp

/-- Witness for claim C10: empty-string title and `None` content fall back
to the fetched page's fields, and the `PUT` carries that payload. -/
theorem claim_C10_witness :
    (updateBody "7" ⟨"Title", "<p>b</p>", some 3⟩ (some "") none).title
      = "Title" ∧
    (updateBody "7" ⟨"Title", "<p>b</p>", some 3⟩ (some "") none).bodyValue
      = "<p>b</p>" ∧
    Call.putContent "7" (updateBody "7" ⟨"Title", "<p>b</p>", some 3⟩ (some "") none)
      ∈ (update_page envNoScope allowScopeUpstream "7" (some "") none).2 :=
  ⟨claim_C10_empty_falls_back.1 "7" ⟨"Title", "<p>b</p>", some 3⟩ (some "") none
     (Or.inr rfl),
   claim_C10_empty_falls_back.2.1 "7" ⟨"Title", "<p>b</p>", some 3⟩ (some "") none
     (Or.inl rfl),
   claim_C10_empty_falls_back.2.2.2.2 envNoScope allowScopeUpstream "7"
     (some "") none ⟨"Title", "<p>b</p>", some 3⟩ [] rfl rfl⟩

/-- `lastAncestorId` is set iff the ancestor list is non-empty. -/
theorem lastAncestorId_isSome (ancestors : List Ancestor) :
    (lastAncestorId ancestors).isSome = true ↔ ancestors ≠ [] := by
  rw [lastAncestorId]
  cases hg : ancestors.getLast? with
  | none =>
    have hnil : ancestors = [] := List.getLast?_eq_none_iff.mp hg
    subst hnil
    simp
  | some a =>
    simp only [Option.isSome_some, true_iff, ne_eq]
    intro hnil
    rw [hnil] at hg
    simp at hg

/-- Claim C9: in each of the three Page-record constructors — page summary,
recursive child item, page-listing item — `parent_page_id` is set iff the
upstream `ancestors` list is non-empty, and when set it is the id of the
last ancestor of that list. -/
theorem claim_C9_parent_page_id :
    (∀ (f : String → String) (d : SummaryData),
       (mkSummaryPage f d).parent_page_id = lastAncestorId d.ancestors ∧
       ((mkSummaryPage f d).parent_page_id.isSome = true ↔ d.ancestors ≠ []) ∧
       ∀ a, d.ancestors.getLast? = some a →
         (mkSummaryPage f d).parent_page_id = some a.id)
    ∧ (∀ (f : String → String) (base : String) (c : ChildData),
        (mkChildPage f base c).parent_page_id = lastAncestorId c.ancestors ∧
        ((mkChildPage f base c).parent_page_id.isSome = true ↔ c.ancestors ≠ []) ∧
        ∀ a, c.ancestors.getLast? = some a →
          (mkChildPage f base c).parent_page_id = some a.id)
    ∧ (∀ (f : String → String) (base : String) (e : ListEntryData),
        (mkListPage f base e).parent_page_id = lastAncestorId e.ancestors ∧
        ((mkListPage f base e).parent_page_id.isSome = true ↔ e.ancestors ≠ []) ∧
        ∀ a, e.ancestors.getLast? = some a →
          (mkListPage f base e).parent_page_id = some a.id) := by
  refine ⟨?_, ?_, ?_⟩
  · intro f d
    refine ⟨rfl, lastAncestorId_isSome d.ancestors, ?_⟩
    intro a ha
    show lastAncestorId d.ancestors = some a.id
    rw [lastAncestorId, ha]
  · intro f base c
    refine ⟨rfl, lastAncestorId_isSome c.ancestors, ?_⟩
    intro a ha
    show lastAncestorId c.ancestors = some a.id
    rw [lastAncestorId, ha]
  · intro f base e
    refine ⟨rfl, lastAncestorId_isSome e.ancestors, ?_⟩
    intro a ha
    show lastAncestorId e.ancestors = some a.id
    rw [lastAncestorId, ha]

/-- Witness for claim C9: a child entry with two ancestors yields the last
ancestor's id as parent, and a summary with no ancestors yields `none`. -/
theorem claim_C9_witness :
    (mkChildPage id "https://w.example" ⟨"9", "T", "<p>x</p>", "/x", none,
        [⟨"1", "A"⟩, ⟨"2", "B"⟩]⟩).parent_page_id = some "2" ∧
    ((mkSummaryPage id ⟨"9", "T", "<p>x</p>", [], "https://w.example", "/x",
        none, none⟩).parent_page_id.isSome = true ↔
      ([] : List Ancestor) ≠ []) :=
  ⟨(claim_C9_parent_page_id.2.1 id "https://w.example"
      ⟨"9", "T", "<p>x</p>", "/x", none, [⟨"1", "A"⟩, ⟨"2", "B"⟩]⟩).2.2
      ⟨"2", "B"⟩ rfl,
   (claim_C9_parent_page_id.1 id
      ⟨"9", "T", "<p>x</p>", [], "https://w.example", "/x", none, none⟩).2.1⟩
